import Mathlib

/-
  Verification of the espCoinWatch firmware's cooperative runtime coordinator
  (src/btc_ticker_weather_websrv.ino) against its natural-language specification.

  The firmware's control loop is shallowly embedded: each engine of the loop
  (acquisition, screen coordination, factory-reset watchdog, alert engine) is
  translated to a pure Lean step function over an explicit state record, with
  the millisecond clock passed in as a `Nat` argument.  `unsigned long`
  timestamps become `Nat`; the firmware only ever subtracts an older timestamp
  from a newer one, so C's modulo-2^32 subtraction coincides with truncated
  `Nat` subtraction on every run modelled here (no wraparound occurs within
  the modelled windows).  Prices are modelled as `Int`: the claims under
  verification concern only order comparisons against integer thresholds, not
  floating-point rounding.
-/

namespace CoinWatch

/-- Mirror of `struct Config` (the fields the verified claims depend on),
with the source's default values. -/
structure Config where
  api_source : Nat := 0
  poll_interval : Nat := 60000
  alert_low : Int := 0
  alert_high : Int := 0
  blink_pattern_low : Nat := 0
  blink_pattern_high : Nat := 1
  weather_enabled : Bool := false
  btc_cycle : Nat := 120000
  weather_cycle : Nat := 10000
  button_mode : Nat := 0
  alert_mode : Nat := 0
  led_inverted : Bool := true
  alert_duration : Nat := 0
  d5_weather_mode : Bool := false
  d5_btc_mode : Bool := false
  d5_timeout : Nat := 5000
deriving Repr, DecidableEq

/-- Mirror of the firmware's BTC price globals (`g_currentPrice`,
`g_priceChange24h`, `g_hasValidData`, `g_dataStale`, `g_lastPollTime`,
`g_lastSuccessTime`, `g_currentProvider`, `g_consecutiveFailures`),
with the source's initial values. -/
structure AcqState where
  currentPrice : Int := 0
  priceChange24h : Int := 0
  hasValidData : Bool := false
  dataStale : Bool := false
  lastPollTime : Nat := 0
  lastSuccessTime : Nat := 0
  currentProvider : Nat := 0
  consecutiveFailures : Nat := 0
deriving Repr, DecidableEq

/-- Per-provider attempt result supplied by the environment: provider id
(0=Binance, 1=CoinGecko, 2=Coinbase, 3=Kraken) to `some (price, change24h)`
on success, `none` on failure.  Each `fetchPriceX` helper in the source, on
success, stores price and change and sets `g_hasValidData = true`,
`g_dataStale = false`, `g_lastSuccessTime = millis()`; on failure it leaves
all globals untouched. -/
def Outcome : Type := Nat → Option (Int × Int)

/-- One provider attempt (the common body of `fetchPriceBinance` /
`fetchPriceCoinGecko` / `fetchPriceCoinbase` / `fetchPriceKraken`):
on success updates the success fields, on failure changes nothing. -/
def fetchProvider (outcome : Outcome) (p : Nat) (now : Nat) (st : AcqState) :
    Bool × AcqState :=
  match outcome p with
  | some pc =>
      (true, { st with currentPrice := pc.1, priceChange24h := pc.2,
                       hasValidData := true, dataStale := false,
                       lastSuccessTime := now })
  | none => (false, st)

/-- The provider attempt order of `fetchPrice`'s `switch (config.api_source)`
(lines 1343-1416): case 1 is Binance only; cases 2/3/4 try the preferred
provider first and then the remaining ones in the fixed order
Binance, CoinGecko, Coinbase, Kraken; the default (0 and any other value)
is Binance, CoinGecko, Coinbase, Kraken. -/
def attemptOrder (api_source : Nat) : List Nat :=
  match api_source with
  | 1 => [0]
  | 2 => [1, 0, 2, 3]
  | 3 => [2, 0, 1, 3]
  | 4 => [3, 0, 1, 2]
  | _ => [0, 1, 2, 3]

/-- The preferred (first-attempted) provider for each `api_source` value,
per the case labels of `fetchPrice`. -/
def preferredOf (api_source : Nat) : Nat :=
  match api_source with
  | 1 => 0
  | 2 => 1
  | 3 => 2
  | 4 => 3
  | _ => 0

/-- Run the attempt cascade of `fetchPrice`: before each attempt
`g_currentProvider` is set to that provider's id, then the provider is tried;
the cascade stops at the first success.  Returns (success, final state,
list of providers actually attempted, in order). -/
def tryProviders (outcome : Outcome) (now : Nat) :
    List Nat → AcqState → Bool × AcqState × List Nat
  | [], st => (false, st, [])
  | p :: rest, st =>
      let st1 := { st with currentProvider := p }
      match outcome p with
      | some pc =>
          (true, { st1 with currentPrice := pc.1, priceChange24h := pc.2,
                            hasValidData := true, dataStale := false,
                            lastSuccessTime := now }, [p])
      | none =>
          let r := tryProviders outcome now rest st1
          (r.1, r.2.1, p :: r.2.2)

/-- Mirror of `fetchPrice()` (lines 1330-1423): returns immediately when WiFi
is down; otherwise runs the provider cascade for the configured source and
then updates `g_consecutiveFailures` (incremented on total failure, reset to
0 on success). -/
def fetchPrice (cfg : Config) (wifiConnected : Bool) (outcome : Outcome)
    (now : Nat) (st : AcqState) : AcqState :=
  if wifiConnected = false then st
  else
    let r := tryProviders outcome now (attemptOrder cfg.api_source) st
    if r.1 = false then
      { r.2.1 with consecutiveFailures := r.2.1.consecutiveFailures + 1 }
    else
      { r.2.1 with consecutiveFailures := 0 }

/-- The attempt list of `fetchPrice`, exposed on its own for statements about
which providers were tried. -/
def fetchAttempts (cfg : Config) (outcome : Outcome) (now : Nat)
    (st : AcqState) : List Nat :=
  (tryProviders outcome now (attemptOrder cfg.api_source) st).2.2

/-- Mirror of the price-poll block of `loop()` (lines 1996-2008): when the
poll interval has elapsed, call `fetchPrice`, then set `g_dataStale` when no
success happened in the last 3 poll intervals, and record the poll time.
(The display update on the BTC screen is a pure render and is not part of
the acquisition state.) -/
def pollStep (cfg : Config) (wifiConnected : Bool) (outcome : Outcome)
    (now : Nat) (st : AcqState) : AcqState :=
  if cfg.poll_interval ≤ now - st.lastPollTime then
    let st1 := fetchPrice cfg wifiConnected outcome now st
    let st2 :=
      if cfg.poll_interval * 3 < now - st1.lastSuccessTime then
        { st1 with dataStale := true }
      else st1
    { st2 with lastPollTime := now }
  else st

/-- The ring order the specification's ordering-policy sentence describes.
Modelled from the spec's words, for comparison with `attemptOrder`: a single
cyclic arrangement of the four providers — the one the auto mode (case 0)
fixes as Binance → CoinGecko → Coinbase → Kraken → Binance — rotated to
start at the preferred provider. -/
def ringOrder (preferred : Nat) : List Nat :=
  [preferred % 4, (preferred + 1) % 4, (preferred + 2) % 4, (preferred + 3) % 4]

/-! Helper lemmas about the provider cascade. -/

theorem tryProviders_fail_fields (outcome : Outcome) (now : Nat)
    (hfail : ∀ p, outcome p = none) (l : List Nat) :
    ∀ st : AcqState,
      (tryProviders outcome now l st).1 = false ∧
      (tryProviders outcome now l st).2.1.dataStale = st.dataStale ∧
      (tryProviders outcome now l st).2.1.lastSuccessTime = st.lastSuccessTime ∧
      (tryProviders outcome now l st).2.1.hasValidData = st.hasValidData ∧
      (tryProviders outcome now l st).2.1.currentPrice = st.currentPrice ∧
      (tryProviders outcome now l st).2.1.priceChange24h = st.priceChange24h ∧
      (tryProviders outcome now l st).2.1.consecutiveFailures = st.consecutiveFailures ∧
      (tryProviders outcome now l st).2.1.lastPollTime = st.lastPollTime := by
  induction l with
  | nil => intro st; simp [tryProviders]
  | cons p rest ih =>
      intro st
      simp only [tryProviders, hfail p]
      simpa using ih { st with currentProvider := p }

theorem tryProviders_attempts_eq (outcome : Outcome) (now : Nat) (l : List Nat) :
    ∀ st : AcqState,
      (tryProviders outcome now l st).2.2 =
        l.takeWhile (fun p => !(outcome p).isSome) ++
          (l.dropWhile (fun p => !(outcome p).isSome)).take 1 := by
  induction l with
  | nil => intro st; simp [tryProviders]
  | cons p rest ih =>
      intro st
      cases hp : outcome p with
      | some pc =>
          simp [tryProviders, hp, List.takeWhile_cons, List.dropWhile_cons]
      | none =>
          simp only [tryProviders, hp, List.takeWhile_cons, List.dropWhile_cons,
            Option.isSome_none, Bool.not_false, if_pos]
          simpa using ih { st with currentProvider := p }

theorem tryProviders_attempts_sublist (outcome : Outcome) (now : Nat) (l : List Nat) :
    ∀ st : AcqState, (tryProviders outcome now l st).2.2.Sublist l := by
  induction l with
  | nil => intro st; simp [tryProviders]
  | cons p rest ih =>
      intro st
      cases hp : outcome p with
      | some pc =>
          simp only [tryProviders, hp]
          exact (List.nil_sublist rest).cons₂ p
      | none =>
          simp only [tryProviders, hp]
          exact (ih { st with currentProvider := p }).cons₂ p

theorem tryProviders_success_iff (outcome : Outcome) (now : Nat) (l : List Nat) :
    ∀ st : AcqState,
      (tryProviders outcome now l st).1 = true ↔
        ∃ p ∈ l, (outcome p).isSome = true := by
  induction l with
  | nil => intro st; simp [tryProviders]
  | cons p rest ih =>
      intro st
      cases hp : outcome p with
      | some pc => simp [tryProviders, hp]
      | none =>
          simp only [tryProviders, hp]
          rw [ih { st with currentProvider := p }]
          simp [hp]

theorem attemptOrder_default (n : Nat) : attemptOrder (n + 5) = [0, 1, 2, 3] := rfl

theorem preferredOf_default (n : Nat) : preferredOf (n + 5) = 0 := rfl

theorem attemptOrder_head (src : Nat) :
    (attemptOrder src).head? = some (preferredOf src) := by
  rcases src with _ | _ | _ | _ | _ | n <;> rfl

theorem attemptOrder_nodup (src : Nat) : (attemptOrder src).Nodup := by
  rcases src with _ | _ | _ | _ | _ | n
  · decide
  · decide
  · decide
  · decide
  · decide
  · show ([0, 1, 2, 3] : List Nat).Nodup
    decide

theorem attemptOrder_perm (src : Nat) :
    attemptOrder src = [0] ∨ (attemptOrder src).Perm [0, 1, 2, 3] := by
  rcases src with _ | _ | _ | _ | _ | n
  · exact Or.inr (by decide)
  · exact Or.inl rfl
  · exact Or.inr (by decide)
  · exact Or.inr (by decide)
  · exact Or.inr (by decide)
  · exact Or.inr (by show ([0, 1, 2, 3] : List Nat).Perm [0, 1, 2, 3]; decide)

/-! Claims about the Acquisition Engine. -/

/-- Helper: the stale-flag update of a poll whose fetch leaves the success
fields unchanged (WiFi down). -/
theorem pollStep_wifiDown_stale_iff (cfg : Config) (outcome : Outcome)
    (now : Nat) (st : AcqState) :
    (pollStep cfg false outcome now st).dataStale = true ↔
      st.dataStale = true ∨
        (cfg.poll_interval ≤ now - st.lastPollTime ∧
         cfg.poll_interval * 3 < now - st.lastSuccessTime) := by
  unfold pollStep fetchPrice
  by_cases hdue : cfg.poll_interval ≤ now - st.lastPollTime
  · by_cases hstale : cfg.poll_interval * 3 < now - st.lastSuccessTime
    · simp [hdue, hstale]
    · simp [hdue, hstale]
  · simp [hdue]

/-- Helper: the stale-flag update of a poll in which every provider fails. -/
theorem pollStep_allfail_stale_iff (cfg : Config) (wifiConnected : Bool)
    (outcome : Outcome) (now : Nat) (st : AcqState)
    (hfail : ∀ p, outcome p = none) :
    (pollStep cfg wifiConnected outcome now st).dataStale = true ↔
      st.dataStale = true ∨
        (cfg.poll_interval ≤ now - st.lastPollTime ∧
         cfg.poll_interval * 3 < now - st.lastSuccessTime) := by
  rcases wifiConnected with _ | _
  · exact pollStep_wifiDown_stale_iff cfg outcome now st
  · unfold pollStep fetchPrice
    simp only [Bool.true_eq_false, if_false]
    obtain ⟨hsucc, hst, hls, -, -, -, -, -⟩ :=
      tryProviders_fail_fields outcome now hfail (attemptOrder cfg.api_source) st
    by_cases hdue : cfg.poll_interval ≤ now - st.lastPollTime
    · simp only [if_pos hdue, hsucc]
      by_cases hstale : cfg.poll_interval * 3 <
          now - (tryProviders outcome now (attemptOrder cfg.api_source) st).2.1.lastSuccessTime
      · rw [hls] at hstale
        simp [hstale, hls, hdue]
      · rw [hls] at hstale
        simp [hstale, hls, hst]
    · simp [hdue]

/-- Claim C1, counterexample to the claimed biconditional.  The claim states
that `g_dataStale` is true iff `g_hasValidData` is true and
`now - g_lastSuccessTime` exceeds `3 * poll_interval`.  On the firmware's
boot state (no value ever acquired, `g_hasValidData = false`,
`g_lastSuccessTime = 0`), a poll at `now = 180001` ms with every provider
failing sets `g_dataStale = true` while `g_hasValidData` is still `false`:
the staleness check at line 2000 has no `g_hasValidData` conjunct. -/
theorem C1_stale_iff_counterexample :
    (pollStep {} true (fun _ => none) 180001 {}).dataStale = true ∧
    (pollStep {} true (fun _ => none) 180001 {}).hasValidData = false := by
  decide

/-- Claim C1 (amended): on a poll in which every provider fails, the stale
flag ends up true exactly when it already was true or the poll was due and
`now - g_lastSuccessTime > 3 * poll_interval`.  In particular it becomes true
only after that bound is exceeded, never earlier, and a single failed poll
one interval after a success does not set it; but the flag is only updated
at poll boundaries and carries no `g_hasValidData` conjunct (it can be set
before any value was ever acquired). -/
theorem C1_stale_only_after_three_intervals (cfg : Config) (wifiConnected : Bool)
    (outcome : Outcome) (now : Nat) (st : AcqState)
    (hfail : ∀ p, outcome p = none) :
    (pollStep cfg wifiConnected outcome now st).dataStale = true ↔
      st.dataStale = true ∨
        (cfg.poll_interval ≤ now - st.lastPollTime ∧
         cfg.poll_interval * 3 < now - st.lastSuccessTime) :=
  pollStep_allfail_stale_iff cfg wifiConnected outcome now st hfail

/-- Witness for C1_stale_only_after_three_intervals at a concrete input:
a first failed poll at `now = 60000` (one interval after boot) leaves the
stale flag false. -/
theorem C1_stale_only_after_three_intervals_witness :
    ((pollStep {} true (fun _ => none) 60000 {}).dataStale = true ↔
      ({} : AcqState).dataStale = true ∨
        (({} : Config).poll_interval ≤ 60000 - ({} : AcqState).lastPollTime ∧
         ({} : Config).poll_interval * 3 < 60000 - ({} : AcqState).lastSuccessTime)) :=
  C1_stale_only_after_three_intervals {} true (fun _ => none) 60000 {} (fun _ => rfl)

/-- Claim C2, counterexample to the ring ordering.  A ring order means one
fixed cyclic arrangement of the four providers, rotated to start at the
preferred one; the auto mode (`api_source = 0`, preferred Binance) fixes that
arrangement as Binance → CoinGecko → Coinbase → Kraken → Binance.  For
`api_source = 2` (CoinGecko preferred) the ring would then be
CoinGecko, Coinbase, Kraken, Binance, but the code attempts
CoinGecko, Binance, Coinbase, Kraken (lines 1349-1364). -/
theorem C2_not_ring_counterexample :
    attemptOrder 0 = ringOrder (preferredOf 0) ∧
    preferredOf 2 = 1 ∧
    ringOrder (preferredOf 2) = [1, 2, 3, 0] ∧
    attemptOrder 2 = [1, 0, 2, 3] ∧
    attemptOrder 2 ≠ ringOrder (preferredOf 2) := by
  decide

/-- Claim C2 (amended): one call to `fetchPrice` attempts the providers in a
deterministic order starting at the preferred provider — the failed-attempt
prefix of `attemptOrder`, followed by the first succeeding provider if any —
and stops at the first success.  The remaining providers after the preferred
one are tried in the fixed base order Binance, CoinGecko, Coinbase, Kraken
(not in a rotation of a single ring).  No provider is attempted after a
success, each provider is attempted at most once, and in the non-single
modes the order is a permutation of all four providers (so on total failure
every provider is attempted exactly once). -/
theorem C2_fallback_order (cfg : Config) (outcome : Outcome) (now : Nat)
    (st : AcqState) :
    fetchAttempts cfg outcome now st =
      (attemptOrder cfg.api_source).takeWhile (fun p => !(outcome p).isSome) ++
        ((attemptOrder cfg.api_source).dropWhile (fun p => !(outcome p).isSome)).take 1 ∧
    (fetchAttempts cfg outcome now st).head? = some (preferredOf cfg.api_source) ∧
    (fetchAttempts cfg outcome now st).Nodup ∧
    ((tryProviders outcome now (attemptOrder cfg.api_source) st).1 = true ↔
      ∃ p ∈ attemptOrder cfg.api_source, (outcome p).isSome = true) ∧
    (attemptOrder cfg.api_source = [0] ∨
      (attemptOrder cfg.api_source).Perm [0, 1, 2, 3]) := by
  refine ⟨tryProviders_attempts_eq outcome now (attemptOrder cfg.api_source) st,
    ?_, ?_, tryProviders_success_iff outcome now (attemptOrder cfg.api_source) st,
    attemptOrder_perm cfg.api_source⟩
  · unfold fetchAttempts
    rw [tryProviders_attempts_eq outcome now (attemptOrder cfg.api_source) st,
      ← attemptOrder_head cfg.api_source]
    cases horder : attemptOrder cfg.api_source with
    | nil =>
        exfalso
        have := attemptOrder_head cfg.api_source
        rw [horder] at this
        exact Option.noConfusion this
    | cons p rest =>
        rw [List.takeWhile_cons, List.dropWhile_cons]
        cases hp : (outcome p).isSome <;> simp [hp]
  · exact List.Nodup.sublist
      (tryProviders_attempts_sublist outcome now (attemptOrder cfg.api_source) st)
      (attemptOrder_nodup cfg.api_source)

/-- Claim C10: when WiFi is not connected, `fetchPrice` returns immediately
(line 1331-1332) and leaves every field of the acquisition state unchanged —
in particular `g_consecutiveFailures` is not incremented — while the poll
block's staleness check still runs (line 2000 executes after the early
return, so the stale flag can still be raised by a disconnected poll). -/
theorem C10_wifi_down_frame (cfg : Config) (outcome : Outcome) (now : Nat)
    (st : AcqState) :
    fetchPrice cfg false outcome now st = st ∧
    (pollStep cfg false outcome now st).consecutiveFailures = st.consecutiveFailures ∧
    (pollStep cfg false outcome now st).hasValidData = st.hasValidData ∧
    (pollStep cfg false outcome now st).currentPrice = st.currentPrice ∧
    (pollStep cfg false outcome now st).priceChange24h = st.priceChange24h ∧
    (pollStep cfg false outcome now st).currentProvider = st.currentProvider ∧
    (pollStep cfg false outcome now st).lastSuccessTime = st.lastSuccessTime ∧
    ((pollStep cfg false outcome now st).dataStale = true ↔
      st.dataStale = true ∨
        (cfg.poll_interval ≤ now - st.lastPollTime ∧
         cfg.poll_interval * 3 < now - st.lastSuccessTime)) := by
  refine ⟨rfl, ?_, ?_, ?_, ?_, ?_, ?_,
    pollStep_wifiDown_stale_iff cfg outcome now st⟩ <;>
    · unfold pollStep fetchPrice
      by_cases hdue : cfg.poll_interval ≤ now - st.lastPollTime
      · by_cases hstale : cfg.poll_interval * 3 < now - st.lastSuccessTime
        · simp [hdue, hstale]
        · simp [hdue, hstale]
      · simp [hdue]

/-! ## Alert Engine

Mirror of the alert logic of `loop()` (lines 2223-2359): trigger evaluation,
alert-duration cutoff, pattern selection, blink timing (including the SOS
stepper), and the idle cleanup latch. -/

/-- Mirror of the alert engine's mutable state: `g_alertStartTime` plus the
`static` locals `lastBlinkTime`, `blinkState`, `ledCleanedUp`, `sosStep` of
`loop()`, with their initial values. -/
structure AlertState where
  alertStartTime : Nat := 0
  lastBlinkTime : Nat := 0
  blinkState : Bool := true
  ledCleanedUp : Bool := true
  sosStep : Nat := 0
deriving Repr, DecidableEq

/-- Mirror of the trigger evaluation (lines 2231-2236): `alertTriggered` is
raised when data is valid and the price breaches an enabled threshold. -/
def alertTriggeredRaw (cfg : Config) (hasValidData : Bool) (price : Int) : Bool :=
  if hasValidData then
    if (decide (0 < cfg.alert_low) && decide (price < cfg.alert_low)) ||
       (decide (0 < cfg.alert_high) && decide (cfg.alert_high < price)) then
      true
    else false
  else false

/-- Mirror of the pattern selection (lines 2271-2276): the low threshold is
checked first, then the high one; the fallback is pattern 0. -/
def selectPattern (cfg : Config) (price : Int) : Nat :=
  if 0 < cfg.alert_low ∧ price < cfg.alert_low then cfg.blink_pattern_low
  else if 0 < cfg.alert_high ∧ cfg.alert_high < price then cfg.blink_pattern_high
  else 0

/-- Mirror of the alert-duration handling (lines 2239-2265): on a trigger,
record the start time if unset; with a configured duration, clear the
triggered flag once the active duration strictly exceeds it, without
resetting the start time; when the condition is not triggered, reset the
start time to 0.  Returns (effective triggered flag, new start time). -/
def alertDurationStep (cfg : Config) (startTime : Nat) (trig : Bool)
    (now : Nat) : Bool × Nat :=
  if trig then
    let start1 := if startTime = 0 then now else startTime
    if 0 < cfg.alert_duration ∧ cfg.alert_duration * 1000 < now - start1 then
      (false, start1)
    else (true, start1)
  else (false, 0)

/-- Mirror of the SOS step-duration computation (lines 2287-2302): 200 ms by
default, 600 ms for the inter-symbol gaps (steps 5 and 11), 2000 ms for the
final pause (step 17), and 600 ms for the dashes (the even steps 6, 8, 10). -/
def sosDuration (sosStep : Nat) : Nat :=
  let d := if sosStep = 5 then 600
           else if sosStep = 11 then 600
           else if sosStep = 17 then 2000
           else 200
  if 6 ≤ sosStep ∧ sosStep ≤ 10 ∧ sosStep % 2 = 0 then 600 else d

/-- Mirror of the SOS stepper (lines 2282-2312): reset the step to 0 after an
abnormally long gap (> 5000 ms) since the last transition; advance the step
when its duration has elapsed, wrapping 17 → 0; the blink visibility is
forced to "on at even steps".  Returns (new step, new last-transition time,
blink visibility). -/
def sosAdvance (sosStep lastBlinkTime now : Nat) : Nat × Nat × Bool :=
  let step0 := if 5000 < now - lastBlinkTime then 0 else sosStep
  let dur := sosDuration step0
  if dur ≤ now - lastBlinkTime then
    let step1 := if 17 < step0 + 1 then 0 else step0 + 1
    (step1, now, decide (step1 % 2 = 0))
  else
    (step0, lastBlinkTime, decide (step0 % 2 = 0))

/-- Mirror of the whole alert block of one loop iteration (lines 2229-2359).
Returns the new alert state and whether the alert is actively blinking this
iteration (the effective `alertTriggered`); when it is `false` the engine
restores the steady rendered state (`blinkState = true`) and latches the LED
cleanup. -/
def alertStep (cfg : Config) (st : AlertState) (hasValidData : Bool)
    (price : Int) (now : Nat) : AlertState × Bool :=
  let trig0 := alertTriggeredRaw cfg hasValidData price
  let ds := alertDurationStep cfg st.alertStartTime trig0 now
  let st1 := { st with alertStartTime := ds.2 }
  if ds.1 then
    let pattern := selectPattern cfg price
    if pattern = 3 then
      let r := sosAdvance st1.sosStep st1.lastBlinkTime now
      ({ st1 with sosStep := r.1, lastBlinkTime := r.2.1, blinkState := r.2.2,
                  ledCleanedUp := false }, true)
    else
      let interval : Nat :=
        if pattern = 1 then 250 else if pattern = 2 then 50 else 1000
      if interval ≤ now - st1.lastBlinkTime then
        ({ st1 with blinkState := !st1.blinkState, lastBlinkTime := now,
                    ledCleanedUp := false }, true)
      else
        ({ st1 with ledCleanedUp := false }, true)
  else
    ({ st1 with blinkState := true, ledCleanedUp := true }, false)

/-- Iterate the alert block at 1 ms loop cadence: `alertRun cfg h p t0 k st`
is the state after running the block at times `t0, t0+1, …, t0+k-1` with a
constant trigger input. -/
def alertRun (cfg : Config) (hasValidData : Bool) (price : Int) (t0 : Nat) :
    Nat → AlertState → AlertState
  | 0, st => st
  | k + 1, st =>
      (alertStep cfg (alertRun cfg hasValidData price t0 k st) hasValidData
        price (t0 + k)).1

/-! Helper lemmas about single alert iterations. -/

/-- A triggered iteration whose start time is already recorded keeps the
start time, is active exactly while the duration cutoff is not exceeded, and
renders steady (blink visible) once the cutoff is exceeded. -/
theorem alertStep_breach_persist (cfg : Config) (h : Bool) (p : Int) (now : Nat)
    (st : AlertState) (hbreach : alertTriggeredRaw cfg h p = true)
    (hne : st.alertStartTime ≠ 0) :
    (alertStep cfg st h p now).1.alertStartTime = st.alertStartTime ∧
    ((alertStep cfg st h p now).2 = true ↔
      ¬(0 < cfg.alert_duration ∧
        cfg.alert_duration * 1000 < now - st.alertStartTime)) ∧
    ((0 < cfg.alert_duration ∧
        cfg.alert_duration * 1000 < now - st.alertStartTime) →
      (alertStep cfg st h p now).1.blinkState = true) := by
  simp only [alertStep, alertDurationStep, hbreach, if_true, if_neg hne]
  by_cases hcut : 0 < cfg.alert_duration ∧
      cfg.alert_duration * 1000 < now - st.alertStartTime
  · simp [hcut]
  · simp only [if_neg hcut, if_true]
    split_ifs <;> simp [hcut]

/-- An iteration whose trigger input is down resets the start time, is
inactive, and restores the steady rendered state. -/
theorem alertStep_nobreach (cfg : Config) (h : Bool) (p : Int) (now : Nat)
    (st : AlertState) (hb : alertTriggeredRaw cfg h p = false) :
    (alertStep cfg st h p now).1.alertStartTime = 0 ∧
    (alertStep cfg st h p now).2 = false ∧
    (alertStep cfg st h p now).1.blinkState = true := by
  simp [alertStep, alertDurationStep, hb]

/-- The first triggered iteration after the start time was reset records the
current time as the new start time and is active. -/
theorem alertStep_breach_start (cfg : Config) (h : Bool) (p : Int) (now : Nat)
    (st : AlertState) (hbreach : alertTriggeredRaw cfg h p = true)
    (h0 : st.alertStartTime = 0) :
    (alertStep cfg st h p now).1.alertStartTime = now ∧
    (alertStep cfg st h p now).2 = true := by
  have hc : ¬(0 < cfg.alert_duration ∧ cfg.alert_duration * 1000 < now - now) := by
    rintro ⟨-, hlt⟩
    simp at hlt
  simp only [alertStep, alertDurationStep, hbreach, if_true, h0, if_pos rfl,
    if_neg hc]
  split_ifs <;> simp

/-! Claims about the Alert Engine's trigger evaluation. -/

/-- Claim C9: on a loop iteration the alert trigger is raised exactly when a
value has been acquired and an enabled threshold is breached
(`low > 0 ∧ value < low`, or `high > 0 ∧ value > high`); the pattern used is
the one of the breached threshold, and when both thresholds apply the
low-threshold pattern wins because it is checked first; with no duration
cutoff configured the alert block's active flag equals this raw trigger. -/
theorem C9_trigger_evaluation (cfg : Config) (hasValidData : Bool)
    (price : Int) (st : AlertState) (now : Nat) :
    (alertTriggeredRaw cfg hasValidData price = true ↔
      hasValidData = true ∧
        ((0 < cfg.alert_low ∧ price < cfg.alert_low) ∨
         (0 < cfg.alert_high ∧ cfg.alert_high < price))) ∧
    (0 < cfg.alert_low → price < cfg.alert_low →
      selectPattern cfg price = cfg.blink_pattern_low) ∧
    (¬(0 < cfg.alert_low ∧ price < cfg.alert_low) →
      0 < cfg.alert_high → cfg.alert_high < price →
      selectPattern cfg price = cfg.blink_pattern_high) ∧
    (cfg.alert_duration = 0 →
      (alertStep cfg st hasValidData price now).2 =
        alertTriggeredRaw cfg hasValidData price) := by
  refine ⟨?_, ?_, ?_, ?_⟩
  · unfold alertTriggeredRaw
    cases hasValidData <;> simp
  · intro h1 h2
    unfold selectPattern
    rw [if_pos ⟨h1, h2⟩]
  · intro hlow h1 h2
    unfold selectPattern
    rw [if_neg hlow, if_pos ⟨h1, h2⟩]
  · intro hdur
    cases hb : alertTriggeredRaw cfg hasValidData price with
    | false => exact (alertStep_nobreach cfg hasValidData price now st hb).2.1
    | true =>
        have hc : ¬(0 < cfg.alert_duration ∧
            cfg.alert_duration * 1000 <
              now - (if st.alertStartTime = 0 then now else st.alertStartTime)) := by
          rintro ⟨hpos, -⟩
          rw [hdur] at hpos
          exact Nat.lt_irrefl 0 hpos
        simp only [alertStep, alertDurationStep, hb, if_true, if_neg hc]
        split_ifs <;> simp

/-- Witness for C9_trigger_evaluation: with `alert_low = 10`,
`alert_high = 2` and price 3 both thresholds are breached and the
low-threshold pattern (here 3 = SOS) is selected. -/
theorem C9_trigger_evaluation_witness :
    selectPattern { alert_low := 10, alert_high := 2, blink_pattern_low := 3 }
      3 = 3 :=
  (C9_trigger_evaluation
      { alert_low := 10, alert_high := 2, blink_pattern_low := 3 } true 3 {}
      0).2.1 (by decide) (by decide)

/-- Claim C6: the SOS stepper honours the fixed 18-step table: visibility is
on exactly at even steps; the step durations are 200 ms for dots and
inter-element gaps, 600 ms for the dashes (steps 6, 8, 10) and the
inter-symbol gaps (steps 5 and 11), and 2000 ms for the final pause
(step 17); a step advances exactly when its duration has elapsed; after step
17 the next step is 0; the step index resets to 0 when more than 5000 ms
have passed since the last transition; and the alert block applies this
stepper whenever the selected pattern is SOS. -/
theorem C6_sos_pattern :
    (∀ s, s < 18 → sosDuration s =
      if s = 17 then 2000
      else if s = 5 ∨ s = 6 ∨ s = 8 ∨ s = 10 ∨ s = 11 then 600
      else 200) ∧
    (∀ stp lbt now : Nat,
      (sosAdvance stp lbt now).2.2 =
        decide ((sosAdvance stp lbt now).1 % 2 = 0)) ∧
    (∀ stp lbt now : Nat, now - lbt ≤ 5000 → sosDuration stp ≤ now - lbt →
      (sosAdvance stp lbt now).1 = (if 17 < stp + 1 then 0 else stp + 1) ∧
      (sosAdvance stp lbt now).2.1 = now) ∧
    (∀ lbt now : Nat, now - lbt ≤ 5000 → sosDuration 17 ≤ now - lbt →
      (sosAdvance 17 lbt now).1 = 0) ∧
    (∀ stp lbt now : Nat, now - lbt ≤ 5000 → now - lbt < sosDuration stp →
      (sosAdvance stp lbt now).1 = stp ∧
      (sosAdvance stp lbt now).2.1 = lbt) ∧
    (∀ stp lbt now : Nat, 5000 < now - lbt →
      sosAdvance stp lbt now = sosAdvance 0 lbt now) ∧
    (∀ cfg : Config, ∀ st : AlertState, ∀ h : Bool, ∀ p : Int, ∀ now : Nat,
      alertTriggeredRaw cfg h p = true → cfg.alert_duration = 0 →
      selectPattern cfg p = 3 →
      (alertStep cfg st h p now).1.sosStep =
          (sosAdvance st.sosStep st.lastBlinkTime now).1 ∧
      (alertStep cfg st h p now).1.lastBlinkTime =
          (sosAdvance st.sosStep st.lastBlinkTime now).2.1 ∧
      (alertStep cfg st h p now).1.blinkState =
          (sosAdvance st.sosStep st.lastBlinkTime now).2.2) := by
  refine ⟨by decide, ?_, ?_, ?_, ?_, ?_, ?_⟩
  · intro stp lbt now
    simp only [sosAdvance]
    split_ifs <;> simp
  · intro stp lbt now hgap hdur
    have hreset : ¬ 5000 < now - lbt := Nat.not_lt.mpr hgap
    unfold sosAdvance
    rw [if_neg hreset, if_pos hdur]
    exact ⟨rfl, rfl⟩
  · intro lbt now hgap hdur
    have hreset : ¬ 5000 < now - lbt := Nat.not_lt.mpr hgap
    unfold sosAdvance
    rw [if_neg hreset, if_pos hdur]
    rfl
  · intro stp lbt now hgap hdur
    have hreset : ¬ 5000 < now - lbt := Nat.not_lt.mpr hgap
    have hdur' : ¬ sosDuration stp ≤ now - lbt := Nat.not_le.mpr hdur
    unfold sosAdvance
    rw [if_neg hreset, if_neg hdur']
    exact ⟨rfl, rfl⟩
  · intro stp lbt now hgap
    unfold sosAdvance
    rw [if_pos hgap, if_pos hgap]
  · intro cfg st h p now hb hdur hpat
    have hc : ¬(0 < cfg.alert_duration ∧
        cfg.alert_duration * 1000 <
          now - (if st.alertStartTime = 0 then now else st.alertStartTime)) := by
      rintro ⟨hpos, -⟩
      rw [hdur] at hpos
      exact Nat.lt_irrefl 0 hpos
    simp only [alertStep, alertDurationStep, hb, if_true, if_neg hc, hpat,
      if_pos rfl]
    exact ⟨trivial, trivial, trivial⟩

/-- Witness for C6_sos_pattern: at step 17 with the 2000 ms pause elapsed,
the next step is 0. -/
theorem C6_sos_pattern_witness : (sosAdvance 17 0 2000).1 = 0 :=
  C6_sos_pattern.2.2.2.1 0 2000 (by decide) (by decide)

/-- Claim C5: with a duration cutoff configured (`alert_duration > 0`) and a
continuous breach whose start time `ts > 0` has been recorded, stepping the
alert block at 1 ms cadence keeps the start timestamp at `ts` forever (the
cutoff does not reset it), the alert is actively blinking at time `ts + k`
exactly while `k ≤ alert_duration * 1000` (so blinking stops once the active
duration exceeds the cutoff and never resumes while the breach persists, the
engine returning to the steady rendered state); an iteration without the
breach resets the start timestamp to 0, and a later breach iteration from
the reset state re-arms with a fresh start timestamp. -/
theorem C5_alert_duration_cutoff (cfg : Config) (price : Int) (ts : Nat)
    (st0 : AlertState) (h2 : Bool) (p2 : Int)
    (hbreach : alertTriggeredRaw cfg true price = true)
    (hd : 0 < cfg.alert_duration) (hts : 0 < ts)
    (hst : st0.alertStartTime = ts)
    (hclear : alertTriggeredRaw cfg h2 p2 = false) :
    (∀ k, (alertRun cfg true price ts k st0).alertStartTime = ts) ∧
    (∀ k, ((alertStep cfg (alertRun cfg true price ts k st0) true price
        (ts + k)).2 = true ↔ k ≤ cfg.alert_duration * 1000)) ∧
    (∀ k, cfg.alert_duration * 1000 < k →
        (alertRun cfg true price ts (k + 1) st0).blinkState = true) ∧
    (∀ st : AlertState, ∀ now : Nat,
        (alertStep cfg st h2 p2 now).1.alertStartTime = 0 ∧
        (alertStep cfg st h2 p2 now).2 = false) ∧
    (∀ st : AlertState, ∀ r : Nat, st.alertStartTime = 0 →
        (alertStep cfg st true price r).1.alertStartTime = r ∧
        (alertStep cfg st true price r).2 = true) := by
  have hinv : ∀ k, (alertRun cfg true price ts k st0).alertStartTime = ts := by
    intro k
    induction k with
    | zero => exact hst
    | succ k ih =>
        have hne : (alertRun cfg true price ts k st0).alertStartTime ≠ 0 := by
          rw [ih]
          omega
        have hp := alertStep_breach_persist cfg true price (ts + k)
          (alertRun cfg true price ts k st0) hbreach hne
        simpa [alertRun] using hp.1.trans ih
  refine ⟨hinv, ?_, ?_, ?_, ?_⟩
  · intro k
    have hne : (alertRun cfg true price ts k st0).alertStartTime ≠ 0 := by
      rw [hinv k]
      omega
    have hp := alertStep_breach_persist cfg true price (ts + k)
      (alertRun cfg true price ts k st0) hbreach hne
    rw [hp.2.1, hinv k]
    have hts' : ts + k - ts = k := by omega
    rw [hts']
    omega
  · intro k hk
    have hne : (alertRun cfg true price ts k st0).alertStartTime ≠ 0 := by
      rw [hinv k]
      omega
    have hp := alertStep_breach_persist cfg true price (ts + k)
      (alertRun cfg true price ts k st0) hbreach hne
    have hc : 0 < cfg.alert_duration ∧ cfg.alert_duration * 1000 <
        (ts + k) - (alertRun cfg true price ts k st0).alertStartTime := by
      rw [hinv k]
      exact ⟨hd, by omega⟩
    simpa [alertRun] using hp.2.2 hc
  · intro st now
    obtain ⟨ha, hb', -⟩ := alertStep_nobreach cfg h2 p2 now st hclear
    exact ⟨ha, hb'⟩
  · intro st r h0
    exact alertStep_breach_start cfg true price r st hbreach h0

/-- Witness for C5_alert_duration_cutoff at a concrete input: cutoff 1 s,
low threshold 10, price 5, breach recorded at `ts = 7`; the alert is still
active 1000 ms into the breach, is inactive 1001 ms in, the start timestamp
is untouched after 5000 iterations, and a breach-free iteration resets the
start timestamp. -/
theorem C5_alert_duration_cutoff_witness :
    ((alertStep { alert_low := 10, alert_duration := 1 }
        (alertRun { alert_low := 10, alert_duration := 1 } true 5 7 1000
          { alertStartTime := 7 }) true 5 (7 + 1000)).2 = true) ∧
    ((alertStep { alert_low := 10, alert_duration := 1 }
        (alertRun { alert_low := 10, alert_duration := 1 } true 5 7 1001
          { alertStartTime := 7 }) true 5 (7 + 1001)).2 ≠ true) ∧
    (alertRun { alert_low := 10, alert_duration := 1 } true 5 7 5000
        { alertStartTime := 7 }).alertStartTime = 7 ∧
    (alertStep { alert_low := 10, alert_duration := 1 }
        { alertStartTime := 7 } false 5 42).1.alertStartTime = 0 := by
  have h := C5_alert_duration_cutoff { alert_low := 10, alert_duration := 1 }
    5 7 { alertStartTime := 7 } false 5 (by decide) (by decide) (by decide)
    rfl (by decide)
  refine ⟨(h.2.1 1000).mpr (by decide), ?_, h.1 5000, (h.2.2.2.1 _ 42).1⟩
  intro hx
  exact absurd ((h.2.1 1001).mp hx) (by decide)

/-! ## Screen Coordinator and Factory-Reset Watchdog

Mirror of the screen-handling blocks of `loop()` (lines 2025-2221), in their
source order: auto-cycle, on-demand auto-return, the D6 screen-toggle button,
and the D5 block (BTC-button mode / weather-button mode / factory reset). -/

/-- Mirror of the screen-related globals and `static` locals of `loop()`:
`g_currentScreen` (0 = BTC/primary, 1 = weather/secondary),
`g_lastScreenSwitch`, the D6 button locals `screenBtnPressStart` /
`screenBtnHandled`, the factory-reset local `btnPressStart`, and the D5
dual-purpose locals `d5WeatherShowing` / `d5BtcShowing` /
`d5BtcReleaseTime` / `d5WeatherReleaseTime`, with their initial values. -/
structure ScreenState where
  currentScreen : Nat := 0
  lastScreenSwitch : Nat := 0
  screenBtnPressStart : Nat := 0
  screenBtnHandled : Bool := false
  btnPressStart : Nat := 0
  d5WeatherShowing : Bool := false
  d5BtcShowing : Bool := false
  d5BtcReleaseTime : Nat := 0
  d5WeatherReleaseTime : Nat := 0
deriving Repr, DecidableEq

/-- What the factory-reset branch does in one iteration: nothing, render the
hold countdown (suppressing other refreshes), or fire the irreversible
wipe-and-restart. -/
inductive ResetAction where
  | idle
  | countdown (value : Int)
  | factoryReset
deriving Repr, DecidableEq

/-- Mirror of the auto-cycle block (lines 2027-2036): only with the weather
feature enabled and `button_mode == 0`, flip the screen once the current
screen's cycle time has elapsed. -/
def autoCycleStep (cfg : Config) (st : ScreenState) (now : Nat) : ScreenState :=
  if cfg.weather_enabled ∧ cfg.button_mode = 0 then
    let currentCycle :=
      if st.currentScreen = 0 then cfg.btc_cycle else cfg.weather_cycle
    if currentCycle ≤ now - st.lastScreenSwitch then
      { st with currentScreen := (st.currentScreen + 1) % 2,
                lastScreenSwitch := now }
    else st
  else st

/-- Mirror of the on-demand auto-return block (lines 2039-2046): only with
weather enabled and `button_mode == 2`, return from the weather screen to
BTC once `weather_cycle` has elapsed. -/
def onDemandStep (cfg : Config) (st : ScreenState) (now : Nat) : ScreenState :=
  if cfg.weather_enabled ∧ cfg.button_mode = 2 ∧ st.currentScreen = 1 ∧
      cfg.weather_cycle ≤ now - st.lastScreenSwitch then
    { st with currentScreen := 0, lastScreenSwitch := now }
  else st

/-- Mirror of the D6 screen-toggle button block (lines 2051-2083):
`btnDown` is `digitalRead(SCREEN_BTN_PIN) == LOW`.  A press-and-release of
50..1000 ms acts once, according to `button_mode`, and only with the weather
feature enabled. -/
def screenButtonStep (cfg : Config) (st : ScreenState) (btnDown : Bool)
    (now : Nat) : ScreenState :=
  if btnDown then
    if st.screenBtnPressStart = 0 then
      { st with screenBtnPressStart := now, screenBtnHandled := false }
    else st
  else
    let st1 :=
      if 0 < st.screenBtnPressStart ∧ st.screenBtnHandled = false then
        let pressDuration := now - st.screenBtnPressStart
        if 50 < pressDuration ∧ pressDuration < 1000 then
          let st2 :=
            if cfg.weather_enabled then
              let st3 :=
                if cfg.button_mode = 0 then
                  { st with currentScreen := (st.currentScreen + 1) % 2 }
                else if cfg.button_mode = 1 then
                  { st with currentScreen := 1 }
                else if cfg.button_mode = 2 then
                  { st with currentScreen := 1 }
                else st
              { st3 with lastScreenSwitch := now }
            else st
          { st2 with screenBtnHandled := true }
        else st
      else st
    { st1 with screenBtnPressStart := 0 }

/-- Mirror of the D5 BTC-button branch (lines 2108-2145, `d5_btc_mode`):
weather is the default screen; holding D5 shows BTC, releasing returns to
weather instantly (`d5_timeout == 0`) or after the timeout. -/
def d5BtcStep (cfg : Config) (st : ScreenState) (d5High : Bool)
    (now : Nat) : ScreenState :=
  if d5High then
    if st.d5BtcShowing = false then
      { st with currentScreen := 0, d5BtcShowing := true,
                d5BtcReleaseTime := 0 }
    else st
  else
    if st.d5BtcShowing then
      if cfg.d5_timeout = 0 then
        { st with currentScreen := 1, d5BtcShowing := false }
      else if st.d5BtcReleaseTime = 0 then
        { st with d5BtcReleaseTime := now }
      else if cfg.d5_timeout ≤ now - st.d5BtcReleaseTime then
        { st with currentScreen := 1, d5BtcShowing := false,
                  d5BtcReleaseTime := 0 }
      else st
    else st

/-- Mirror of the D5 weather-button branch (lines 2146-2183,
`d5_weather_mode`): BTC is the default screen; holding D5 shows weather,
releasing returns to BTC instantly (`d5_timeout == 0`) or after the
timeout; a re-press while the timeout is pending keeps the weather screen. -/
def d5WeatherStep (cfg : Config) (st : ScreenState) (d5High : Bool)
    (now : Nat) : ScreenState :=
  if d5High then
    if st.d5WeatherShowing = false then
      { st with currentScreen := 1, d5WeatherShowing := true,
                d5WeatherReleaseTime := 0 }
    else st
  else
    if st.d5WeatherShowing then
      if cfg.d5_timeout = 0 then
        { st with currentScreen := 0, d5WeatherShowing := false }
      else if st.d5WeatherReleaseTime = 0 then
        { st with d5WeatherReleaseTime := now }
      else if cfg.d5_timeout ≤ now - st.d5WeatherReleaseTime then
        { st with currentScreen := 0, d5WeatherShowing := false,
                  d5WeatherReleaseTime := 0 }
      else st
    else st

/-- Mirror of the factory-reset branch (lines 2186-2220): track the hold
start, fire the wipe-and-restart once the hold strictly exceeds 10000 ms,
render the countdown `10 - duration/1000` once it strictly exceeds 2000 ms,
and clear the hold start on release. -/
def factoryResetStep (st : ScreenState) (d5High : Bool) (now : Nat) :
    ScreenState × ResetAction :=
  if d5High then
    let start1 := if st.btnPressStart = 0 then now else st.btnPressStart
    let duration := now - start1
    if 10000 < duration then
      ({ st with btnPressStart := start1 }, ResetAction.factoryReset)
    else if 2000 < duration then
      ({ st with btnPressStart := start1 },
        ResetAction.countdown (10 - Int.ofNat (duration / 1000)))
    else
      ({ st with btnPressStart := start1 }, ResetAction.idle)
  else
    ({ st with btnPressStart := 0 }, ResetAction.idle)

/-- Mirror of the initial screen selection in `setup()` (lines 1941-1948):
weather only when `d5_btc_mode` is set and the weather feature is enabled,
otherwise BTC. -/
def initialScreen (cfg : Config) : Nat :=
  if cfg.d5_btc_mode ∧ cfg.weather_enabled then 1 else 0

/-- One full screen-coordination pass of `loop()` (lines 2025-2221), in
source order: auto-cycle, on-demand return, D6 button, then the D5 block
(`d5_btc_mode` branch, else `d5_weather_mode` branch, else factory reset).
`btnDown` is the D6 level (pressed), `d5High` the D5 level. -/
def screenStep (cfg : Config) (st : ScreenState) (btnDown d5High : Bool)
    (now : Nat) : ScreenState × ResetAction :=
  let st1 := autoCycleStep cfg st now
  let st2 := onDemandStep cfg st1 now
  let st3 := screenButtonStep cfg st2 btnDown now
  if cfg.d5_btc_mode then (d5BtcStep cfg st3 d5High now, ResetAction.idle)
  else if cfg.d5_weather_mode then
    (d5WeatherStep cfg st3 d5High now, ResetAction.idle)
  else factoryResetStep st3 d5High now

/-- Iterate the screen pass at 1 ms loop cadence over an input trace:
`screenRun cfg inputs k st` is the state after running the pass at times
`0, 1, …, k-1`, reading at each time `t` the D6 and D5 levels
`(inputs t).1, (inputs t).2`. -/
def screenRun (cfg : Config) (inputs : Nat → Bool × Bool) :
    Nat → ScreenState → ScreenState
  | 0, st => st
  | k + 1, st =>
      (screenStep cfg (screenRun cfg inputs k st) (inputs k).1 (inputs k).2
        k).1

/-! Helper lemmas about the screen blocks. -/

/-- The auto-cycle block is inert unless weather is enabled and
`button_mode = 0`. -/
theorem autoCycleStep_inert (cfg : Config) (st : ScreenState) (now : Nat)
    (h : ¬(cfg.weather_enabled = true ∧ cfg.button_mode = 0)) :
    autoCycleStep cfg st now = st := by
  unfold autoCycleStep
  rw [if_neg]
  simpa using h

/-- The on-demand block is inert unless `button_mode = 2` (with weather
enabled, on the weather screen, after the cycle time). -/
theorem onDemandStep_inert (cfg : Config) (st : ScreenState) (now : Nat)
    (h : cfg.button_mode ≠ 2) :
    onDemandStep cfg st now = st := by
  unfold onDemandStep
  rw [if_neg]
  rintro ⟨-, h2, -, -⟩
  exact h h2

/-- The D6 button block never changes the active screen when the weather
feature is disabled, and never changes the factory-reset hold start. -/
theorem screenButtonStep_fields (cfg : Config) (st : ScreenState)
    (btnDown : Bool) (now : Nat) :
    (cfg.weather_enabled = false →
      (screenButtonStep cfg st btnDown now).currentScreen = st.currentScreen) ∧
    (screenButtonStep cfg st btnDown now).btnPressStart = st.btnPressStart ∧
    (screenButtonStep cfg st btnDown now).d5WeatherShowing = st.d5WeatherShowing ∧
    (screenButtonStep cfg st btnDown now).d5BtcShowing = st.d5BtcShowing ∧
    (screenButtonStep cfg st btnDown now).d5BtcReleaseTime = st.d5BtcReleaseTime ∧
    (screenButtonStep cfg st btnDown now).d5WeatherReleaseTime =
      st.d5WeatherReleaseTime := by
  unfold screenButtonStep
  split_ifs <;> simp_all [apply_ite ScreenState.currentScreen,
    apply_ite ScreenState.btnPressStart, apply_ite ScreenState.d5WeatherShowing,
    apply_ite ScreenState.d5BtcShowing, apply_ite ScreenState.d5BtcReleaseTime,
    apply_ite ScreenState.d5WeatherReleaseTime]

/-- The auto-cycle and on-demand blocks never change the factory-reset hold
start nor the D5 dual-purpose flags. -/
theorem cycleBlocks_fields (cfg : Config) (st : ScreenState) (now : Nat) :
    (onDemandStep cfg (autoCycleStep cfg st now) now).btnPressStart =
      st.btnPressStart ∧
    (onDemandStep cfg (autoCycleStep cfg st now) now).d5WeatherShowing =
      st.d5WeatherShowing ∧
    (onDemandStep cfg (autoCycleStep cfg st now) now).d5BtcShowing =
      st.d5BtcShowing ∧
    (onDemandStep cfg (autoCycleStep cfg st now) now).d5BtcReleaseTime =
      st.d5BtcReleaseTime ∧
    (onDemandStep cfg (autoCycleStep cfg st now) now).d5WeatherReleaseTime =
      st.d5WeatherReleaseTime ∧
    (onDemandStep cfg (autoCycleStep cfg st now) now).screenBtnPressStart =
      st.screenBtnPressStart := by
  unfold onDemandStep autoCycleStep
  split_ifs <;> simp_all [apply_ite ScreenState.btnPressStart,
    apply_ite ScreenState.d5WeatherShowing, apply_ite ScreenState.d5BtcShowing,
    apply_ite ScreenState.d5BtcReleaseTime,
    apply_ite ScreenState.d5WeatherReleaseTime,
    apply_ite ScreenState.screenBtnPressStart]

/-- The factory-reset branch never changes the active screen. -/
theorem factoryResetStep_screen (st : ScreenState) (d5High : Bool) (now : Nat) :
    (factoryResetStep st d5High now).1.currentScreen = st.currentScreen := by
  unfold factoryResetStep
  split_ifs <;>
    simp [apply_ite (fun r : ScreenState × ResetAction => r.1.currentScreen)]

/-! Claims about the Screen Coordinator. -/

/-- Claim C3, counterexample.  The claim states that with the weather feature
disabled no loop iteration ever sets the active screen to Secondary,
regardless of dual-purpose D5 button events.  But the D5 weather-button
branch (line 2152) does not check `config.weather_enabled`: from the boot
screen state, with `weather_enabled = false` and `d5_weather_mode = true`
(a configuration the save handler permits — it forces `button_mode = 3` but
does not force the weather feature on), a single iteration with D5 held
switches the active screen to Secondary. -/
theorem C3_secondary_unreachable_counterexample :
    (screenStep { weather_enabled := false, button_mode := 3, d5_weather_mode := true }
      {} false true 100).1.currentScreen = 1 := by
  decide

/-- Claim C3 (amended): with the weather feature disabled and no
dual-purpose D5 role configured, no loop iteration changes the active
screen at all (so Secondary is never selected: the auto-cycle, on-demand
and short-press paths all check the feature flag, and the factory-reset
branch never touches the screen), and the initial screen chosen by `setup()`
is Primary; however the D5 dual-purpose branches do not check the feature
flag and can still select Secondary (see the counterexample). -/
theorem C3_secondary_unreachable (cfg : Config) (st : ScreenState)
    (btnDown d5High : Bool) (now : Nat)
    (hw : cfg.weather_enabled = false)
    (hbtc : cfg.d5_btc_mode = false) (hwea : cfg.d5_weather_mode = false) :
    (screenStep cfg st btnDown d5High now).1.currentScreen = st.currentScreen ∧
    initialScreen cfg = 0 := by
  constructor
  · have hac : autoCycleStep cfg st now = st := by
      apply autoCycleStep_inert
      rintro ⟨h1, -⟩
      rw [hw] at h1
      exact Bool.noConfusion h1
    have hod : onDemandStep cfg st now = st := by
      unfold onDemandStep
      rw [if_neg]
      rintro ⟨h1, -⟩
      rw [hw] at h1
      exact Bool.noConfusion h1
    have hsb := (screenButtonStep_fields cfg st btnDown now).1 hw
    unfold screenStep
    rw [hbtc, hwea]
    simp only [Bool.false_eq_true, if_false, hac, hod]
    rw [factoryResetStep_screen, hsb]
  · unfold initialScreen
    rw [if_neg]
    rintro ⟨-, h1⟩
    rw [hw] at h1
    exact Bool.noConfusion h1

/-- Witness for C3_secondary_unreachable at a concrete input: with weather
disabled and no D5 role, an iteration with both buttons active leaves the
boot screen (Primary) unchanged. -/
theorem C3_secondary_unreachable_witness :
    ((screenStep {} {} true true 500).1.currentScreen =
      ({} : ScreenState).currentScreen) ∧
    initialScreen {} = 0 :=
  C3_secondary_unreachable {} {} true true 500 rfl rfl rfl

/-- The three blocks ahead of the D5 block preserve the factory-reset hold
start. -/
theorem front3_btnPressStart (cfg : Config) (st : ScreenState)
    (btnDown : Bool) (now : Nat) :
    (screenButtonStep cfg (onDemandStep cfg (autoCycleStep cfg st now) now)
      btnDown now).btnPressStart = st.btnPressStart :=
  ((screenButtonStep_fields cfg _ btnDown now).2.1).trans
    (cycleBlocks_fields cfg st now).1

/-- With no D5 dual-purpose role configured, the D5 block of `screenStep` is
the factory-reset branch. -/
theorem screenStep_factory (cfg : Config) (st : ScreenState)
    (btnDown d5High : Bool) (now : Nat)
    (hbtc : cfg.d5_btc_mode = false) (hwea : cfg.d5_weather_mode = false) :
    screenStep cfg st btnDown d5High now =
      factoryResetStep
        (screenButtonStep cfg (onDemandStep cfg (autoCycleStep cfg st now) now)
          btnDown now) d5High now := by
  unfold screenStep
  rw [hbtc, hwea]
  simp

/-- A held factory-reset input with a recorded press start `t0 > 0`:
the action after `τ` further milliseconds, and the preserved press start. -/
theorem factoryResetStep_held (st : ScreenState) (t0 τ : Nat) (ht0 : 0 < t0)
    (hp : st.btnPressStart = t0) :
    ((factoryResetStep st true (t0 + τ)).2 =
      if 10000 < τ then ResetAction.factoryReset
      else if 2000 < τ then ResetAction.countdown (10 - Int.ofNat (τ / 1000))
      else ResetAction.idle) ∧
    (factoryResetStep st true (t0 + τ)).1.btnPressStart = t0 := by
  have h0 : ¬ st.btnPressStart = 0 := by omega
  unfold factoryResetStep
  rw [if_pos rfl, if_neg h0, hp]
  simp only [Nat.add_sub_cancel_left]
  constructor
  · split_ifs <;> rfl
  · split_ifs <;> rfl

/-- Claim C7, counterexample to "fires at t = 10000 ms exactly".  The code
fires only when the held duration strictly exceeds 10000 ms (line 2191,
`duration > 10000`): with the press start recorded at time 1, the iteration
at time 10001 (held duration exactly 10000 ms) still renders the countdown
(value 0) and does not fire; the first firing iteration is at held duration
10001 ms. -/
theorem C7_fires_at_10000_counterexample :
    (screenStep {} { btnPressStart := 1 } false true 10001).2 =
        ResetAction.countdown 0 ∧
    (screenStep {} { btnPressStart := 1 } false true 10001).2 ≠
        ResetAction.factoryReset ∧
    (screenStep {} { btnPressStart := 1 } false true 10002).2 =
        ResetAction.factoryReset := by
  decide

/-- Claim C7 (amended): with the factory-reset role on D5 (no dual-purpose
mode) and the press start recorded at `t0 > 0`, while the input stays held:
at held duration `τ` with `2000 < τ ≤ 10000` the iteration renders the
countdown `10 - floor(τ/1000)` (so `10 - floor(t/1000)` throughout
t = 3000..9000 of the hold) and the recorded press start is preserved; the
wipe-and-restart fires iff the held duration strictly exceeds 10000 ms (at
1 ms loop cadence, its first and only firing iteration is at τ = 10001,
after which the device restarts — not at τ = 10000 exactly); releasing at
any time clears the press start (no residual countdown state) and performs
no action; and a fresh press records the current time as the press start. -/
theorem C7_factory_reset_watchdog (cfg : Config) (st : ScreenState)
    (btnDown : Bool) (t0 τ now : Nat)
    (hbtc : cfg.d5_btc_mode = false) (hwea : cfg.d5_weather_mode = false)
    (hp : st.btnPressStart = t0) (ht0 : 0 < t0) :
    (2000 < τ → τ ≤ 10000 →
      (screenStep cfg st btnDown true (t0 + τ)).2 =
        ResetAction.countdown (10 - Int.ofNat (τ / 1000))) ∧
    ((screenStep cfg st btnDown true (t0 + τ)).2 = ResetAction.factoryReset ↔
      10000 < τ) ∧
    (screenStep cfg st btnDown true (t0 + τ)).1.btnPressStart = t0 ∧
    (screenStep cfg st btnDown false now).1.btnPressStart = 0 ∧
    (screenStep cfg st btnDown false now).2 = ResetAction.idle ∧
    (∀ s : ScreenState, s.btnPressStart = 0 →
      (screenStep cfg s btnDown true now).1.btnPressStart = now) := by
  have hp3 : (screenButtonStep cfg
      (onDemandStep cfg (autoCycleStep cfg st (t0 + τ)) (t0 + τ))
      btnDown (t0 + τ)).btnPressStart = t0 :=
    (front3_btnPressStart cfg st btnDown (t0 + τ)).trans hp
  have hheld := factoryResetStep_held _ t0 τ ht0 hp3
  refine ⟨?_, ?_, ?_, ?_, ?_, ?_⟩
  · intro h1 h2
    rw [screenStep_factory cfg st btnDown true (t0 + τ) hbtc hwea, hheld.1,
      if_neg (by omega), if_pos h1]
  · rw [screenStep_factory cfg st btnDown true (t0 + τ) hbtc hwea, hheld.1]
    by_cases h1 : 10000 < τ
    · simp [h1]
    · rw [if_neg h1]
      split_ifs <;> simp [h1]
  · rw [screenStep_factory cfg st btnDown true (t0 + τ) hbtc hwea]
    exact hheld.2
  · rw [screenStep_factory cfg st btnDown false now hbtc hwea]
    unfold factoryResetStep
    simp
  · rw [screenStep_factory cfg st btnDown false now hbtc hwea]
    unfold factoryResetStep
    simp
  · intro s hs
    have hs3 : (screenButtonStep cfg
        (onDemandStep cfg (autoCycleStep cfg s now) now)
        btnDown now).btnPressStart = 0 :=
      (front3_btnPressStart cfg s btnDown now).trans hs
    rw [screenStep_factory cfg s btnDown true now hbtc hwea]
    unfold factoryResetStep
    rw [if_pos rfl, if_pos hs3]
    simp

/-- Witness for C7_factory_reset_watchdog at a concrete input: press start
recorded at t0 = 1; at held duration 5000 ms the countdown shows 5; the
reset has not fired at held duration 10000 ms; a release clears the press
start. -/
theorem C7_factory_reset_watchdog_witness :
    (screenStep {} { btnPressStart := 1 } false true (1 + 5000)).2 =
        ResetAction.countdown 5 ∧
    ¬(screenStep {} { btnPressStart := 1 } false true (1 + 10000)).2 =
        ResetAction.factoryReset ∧
    (screenStep {} { btnPressStart := 1 } false false 9999).1.btnPressStart
        = 0 := by
  have h5 := C7_factory_reset_watchdog {} { btnPressStart := 1 } false 1 5000
    9999 rfl rfl rfl (by decide)
  have h10 := C7_factory_reset_watchdog {} { btnPressStart := 1 } false 1 10000
    9999 rfl rfl rfl (by decide)
  refine ⟨?_, ?_, h5.2.2.2.1⟩
  · have := h5.1 (by decide) (by decide)
    simpa using this
  · intro hx
    exact absurd (h10.2.1.mp hx) (by decide)

/-- The always-weather configuration used for claim C8. -/
def alwaysWeatherCfg : Config := { weather_enabled := true, button_mode := 1 }

/-- Claim C8, counterexample.  The claim states that in AlwaysSecondary mode
(`button_mode = 1`) a short press forces Primary as a one-shot without
persistently changing the active screen, and that the screen is Secondary in
steady state.  In the code the short-press handler for mode 1 executes
`g_currentScreen = 1` (line 2068, "Force weather screen"): from the boot
state (screen Primary — `setup()` selects Primary in mode 1, line 1946), a
press at t = 100 and release at t = 300 leaves the persistent active screen
at Secondary (1), not Primary; so the press forces Secondary persistently,
the exact opposite of the claim. -/
theorem C8_always_secondary_counterexample :
    initialScreen alwaysWeatherCfg = 0 ∧
    (screenStep alwaysWeatherCfg
      (screenStep alwaysWeatherCfg {} true false 100).1
      false false 300).1.currentScreen = 1 := by
  decide

/-- Claim C8 (amended): in mode 1 no timer-driven switching occurs (the
auto-cycle and on-demand blocks are inert), once the screen is Secondary no
iteration leaves it (it is pinned from then on), and a short press (50 ms <
duration < 1000 ms) persistently sets the active screen to Secondary —
`g_currentScreen = 1` — with an immediate re-render; the screen is not
Secondary at startup (setup selects Primary even in mode 1) until a press
or other path sets it. -/
theorem C8_always_secondary (cfg : Config) (st : ScreenState)
    (btnDown d5High : Bool) (now : Nat)
    (hm : cfg.button_mode = 1)
    (hbtc : cfg.d5_btc_mode = false) (hwea : cfg.d5_weather_mode = false) :
    autoCycleStep cfg st now = st ∧
    onDemandStep cfg st now = st ∧
    (st.currentScreen = 1 →
      (screenStep cfg st btnDown d5High now).1.currentScreen = 1) ∧
    (cfg.weather_enabled = true → st.screenBtnPressStart ≠ 0 →
      st.screenBtnHandled = false → 50 < now - st.screenBtnPressStart →
      now - st.screenBtnPressStart < 1000 →
      (screenStep cfg st false d5High now).1.currentScreen = 1) ∧
    initialScreen cfg = 0 := by
  have hac : autoCycleStep cfg st now = st := by
    apply autoCycleStep_inert
    rintro ⟨-, h0⟩
    rw [hm] at h0
    exact absurd h0 (by decide)
  have hod : onDemandStep cfg st now = st := by
    apply onDemandStep_inert
    rw [hm]
    decide
  refine ⟨hac, hod, ?_, ?_, ?_⟩
  · intro hscr
    rw [screenStep_factory cfg st btnDown d5High now hbtc hwea,
      factoryResetStep_screen, hac, hod]
    unfold screenButtonStep
    split_ifs <;>
      simp_all [hm, apply_ite ScreenState.currentScreen]
  · intro hwen hps hh h50 h1000
    rw [screenStep_factory cfg st false d5High now hbtc hwea,
      factoryResetStep_screen, hac, hod]
    unfold screenButtonStep
    rw [if_neg (by simp), if_pos ⟨Nat.pos_of_ne_zero hps, hh⟩,
      if_pos ⟨h50, h1000⟩, if_pos hwen, if_neg (by rw [hm]; decide),
      if_pos hm]
  · unfold initialScreen
    rw [if_neg]
    rintro ⟨h0, -⟩
    rw [hbtc] at h0
    exact Bool.noConfusion h0

/-- Witness for C8_always_secondary at a concrete input: in mode 1, from the
weather screen, an idle iteration keeps the screen at Secondary, and a
short-press release (pressed at 100, released at 300) sets it to
Secondary. -/
theorem C8_always_secondary_witness :
    (screenStep alwaysWeatherCfg { currentScreen := 1 } false false
        7777).1.currentScreen = 1 ∧
    (screenStep alwaysWeatherCfg { screenBtnPressStart := 100 } false false
        300).1.currentScreen = 1 ∧
    initialScreen alwaysWeatherCfg = 0 := by
  have h1 := C8_always_secondary alwaysWeatherCfg { currentScreen := 1 }
    false false 7777 rfl rfl rfl
  have h2 := C8_always_secondary alwaysWeatherCfg
    { screenBtnPressStart := 100 } false false 300 rfl rfl rfl
  exact ⟨h1.2.2.1 rfl, h2.2.2.2.1 rfl (by decide) rfl (by decide) (by decide),
    h1.2.2.2.2⟩

/-! Helper lemmas for the D5 weather-button branch (claim C4). -/

/-- Rising edge: a D5 press while not showing switches to the weather screen
immediately and clears the pending timeout. -/
theorem d5WeatherStep_press (cfg : Config) (st : ScreenState) (now : Nat)
    (hsh : st.d5WeatherShowing = false) :
    d5WeatherStep cfg st true now =
      { st with currentScreen := 1, d5WeatherShowing := true,
                d5WeatherReleaseTime := 0 } := by
  unfold d5WeatherStep
  rw [if_pos rfl, if_pos hsh]

/-- A held D5 while already showing changes nothing. -/
theorem d5WeatherStep_hold (cfg : Config) (st : ScreenState) (now : Nat)
    (hsh : st.d5WeatherShowing = true) :
    d5WeatherStep cfg st true now = st := by
  unfold d5WeatherStep
  rw [if_pos rfl, if_neg (by rw [hsh]; exact fun h => Bool.noConfusion h)]

/-- Falling edge with a nonzero timeout: the release starts the countdown. -/
theorem d5WeatherStep_release_start (cfg : Config) (st : ScreenState)
    (now : Nat) (hsh : st.d5WeatherShowing = true)
    (ht : cfg.d5_timeout ≠ 0) (hr : st.d5WeatherReleaseTime = 0) :
    d5WeatherStep cfg st false now =
      { st with d5WeatherReleaseTime := now } := by
  unfold d5WeatherStep
  rw [if_neg (by exact fun h => Bool.noConfusion h), if_pos hsh, if_neg ht,
    if_pos hr]

/-- Released with the countdown pending but not yet elapsed: no change. -/
theorem d5WeatherStep_wait (cfg : Config) (st : ScreenState) (now : Nat)
    (hsh : st.d5WeatherShowing = true) (ht : cfg.d5_timeout ≠ 0)
    (hr : st.d5WeatherReleaseTime ≠ 0)
    (hlt : now - st.d5WeatherReleaseTime < cfg.d5_timeout) :
    d5WeatherStep cfg st false now = st := by
  unfold d5WeatherStep
  rw [if_neg (by exact fun h => Bool.noConfusion h), if_pos hsh, if_neg ht,
    if_neg hr, if_neg (Nat.not_le.mpr hlt)]

/-- Released with the countdown elapsed: revert to the BTC screen. -/
theorem d5WeatherStep_revert (cfg : Config) (st : ScreenState) (now : Nat)
    (hsh : st.d5WeatherShowing = true) (ht : cfg.d5_timeout ≠ 0)
    (hr : st.d5WeatherReleaseTime ≠ 0)
    (hge : cfg.d5_timeout ≤ now - st.d5WeatherReleaseTime) :
    d5WeatherStep cfg st false now =
      { st with currentScreen := 0, d5WeatherShowing := false,
                d5WeatherReleaseTime := 0 } := by
  unfold d5WeatherStep
  rw [if_neg (by exact fun h => Bool.noConfusion h), if_pos hsh, if_neg ht,
    if_neg hr, if_pos hge]

/-- Released with timeout 0: instant revert to the BTC screen. -/
theorem d5WeatherStep_instant (cfg : Config) (st : ScreenState) (now : Nat)
    (hsh : st.d5WeatherShowing = true) (ht : cfg.d5_timeout = 0) :
    d5WeatherStep cfg st false now =
      { st with currentScreen := 0, d5WeatherShowing := false } := by
  unfold d5WeatherStep
  rw [if_neg (by exact fun h => Bool.noConfusion h), if_pos hsh, if_pos ht]

/-- Released while not showing: no change. -/
theorem d5WeatherStep_idle (cfg : Config) (st : ScreenState) (now : Nat)
    (hsh : st.d5WeatherShowing = false) :
    d5WeatherStep cfg st false now = st := by
  unfold d5WeatherStep
  rw [if_neg (by exact fun h => Bool.noConfusion h),
    if_neg (by rw [hsh]; exact fun h => Bool.noConfusion h)]

/-- With `d5_weather_mode` configured (which forces `button_mode = 3`), one
loop iteration with the D6 button up reduces to the D5 weather-button
branch. -/
theorem screenStep_d5weather (cfg : Config) (st : ScreenState)
    (d5High : Bool) (now : Nat)
    (hmode : cfg.button_mode = 3) (hbtc : cfg.d5_btc_mode = false)
    (hwea : cfg.d5_weather_mode = true) (hsb : st.screenBtnPressStart = 0) :
    (screenStep cfg st false d5High now).1 = d5WeatherStep cfg st d5High now := by
  have hac : autoCycleStep cfg st now = st := by
    apply autoCycleStep_inert
    rintro ⟨-, h0⟩
    rw [hmode] at h0
    exact absurd h0 (by decide)
  have hod : onDemandStep cfg st now = st := by
    apply onDemandStep_inert
    rw [hmode]
    decide
  have hsb' : screenButtonStep cfg st false now = st := by
    obtain ⟨cs, ls, sb, sh, bp, dw, db, dbr, dwr⟩ := st
    simp only at hsb
    subst hsb
    simp [screenButtonStep]
  unfold screenStep
  rw [hbtc, hwea]
  simp only [hac, hod, hsb']
  simp

/-- The D5-weather configuration of the C4 scenario: timeout 5000 ms. -/
def d5Cfg : Config :=
  { weather_enabled := true, button_mode := 3, d5_weather_mode := true,
    d5_timeout := 5000 }

/-- The same configuration with timeout 0 (instant revert). -/
def d5CfgInstant : Config :=
  { weather_enabled := true, button_mode := 3, d5_weather_mode := true,
    d5_timeout := 0 }

/-- D5 input trace of the C4 re-press scenario: held during [0,1000) and
from 3000 on (D6 never pressed). -/
def d5Press1 : Nat → Bool × Bool :=
  fun t => (false, decide (t < 1000) || decide (3000 ≤ t))

/-- D5 input trace of the C4 single-release scenario: held during [0,1000)
only. -/
def d5Press2 : Nat → Bool × Bool :=
  fun t => (false, decide (t < 1000))

/-- State while the weather screen is shown by a D5 hold. -/
def d5ShowingSt : ScreenState :=
  { currentScreen := 1, d5WeatherShowing := true }

/-- State after the release at t = 1000: weather still shown, countdown
pending since 1000. -/
def d5PendingSt : ScreenState :=
  { currentScreen := 1, d5WeatherShowing := true,
    d5WeatherReleaseTime := 1000 }

/-- Trace characterization for the re-press scenario: the press at t = 0
shows weather immediately; the release at t = 1000 records the countdown;
the re-press at t = 3000 arrives before the countdown elapses, and from
then on the input stays held, so the pending revert never fires. -/
theorem screenRun_press1_char (k : Nat) :
    screenRun d5Cfg d5Press1 k {} =
      if k = 0 then {} else if k ≤ 1000 then d5ShowingSt else d5PendingSt := by
  induction k with
  | zero => rfl
  | succ k ih =>
      rw [screenRun, ih]
      simp only [d5Press1]
      by_cases h0 : k = 0
      · subst h0
        decide
      · rw [if_neg h0]
        rcases Nat.lt_or_ge k 1000 with hk | hk
        · rw [if_pos (show k ≤ 1000 by omega)]
          have hd : (decide (k < 1000) || decide (3000 ≤ k)) = true := by
            simp
            omega
          rw [hd, screenStep_d5weather d5Cfg d5ShowingSt true k rfl rfl rfl rfl,
            d5WeatherStep_hold d5Cfg d5ShowingSt k rfl,
            if_neg (show ¬ k + 1 = 0 by omega),
            if_pos (show k + 1 ≤ 1000 by omega)]
        · rcases Nat.lt_or_ge k 1001 with hk2 | hk2
          · have hk' : k = 1000 := by omega
            subst hk'
            decide
          · rcases Nat.lt_or_ge k 3000 with hk3 | hk3
            · rw [if_neg (show ¬ k ≤ 1000 by omega)]
              have hd : (decide (k < 1000) || decide (3000 ≤ k)) = false := by
                simp
                omega
              rw [hd,
                screenStep_d5weather d5Cfg d5PendingSt false k rfl rfl rfl rfl,
                d5WeatherStep_wait d5Cfg d5PendingSt k rfl (by decide)
                  (by decide) (by show k - 1000 < 5000; omega),
                if_neg (show ¬ k + 1 = 0 by omega),
                if_neg (show ¬ k + 1 ≤ 1000 by omega)]
            · rw [if_neg (show ¬ k ≤ 1000 by omega)]
              have hd : (decide (k < 1000) || decide (3000 ≤ k)) = true := by
                simp
                omega
              rw [hd,
                screenStep_d5weather d5Cfg d5PendingSt true k rfl rfl rfl rfl,
                d5WeatherStep_hold d5Cfg d5PendingSt k rfl,
                if_neg (show ¬ k + 1 = 0 by omega),
                if_neg (show ¬ k + 1 ≤ 1000 by omega)]

/-- Trace characterization for the single-release scenario: pressed during
[0,1000), released at t = 1000, countdown pending from 1000, revert fires in
the iteration at t = 6000 = 1000 + 5000, and the state stays reverted. -/
theorem screenRun_press2_char (k : Nat) :
    screenRun d5Cfg d5Press2 k {} =
      if k = 0 then {}
      else if k ≤ 1000 then d5ShowingSt
      else if k ≤ 6000 then d5PendingSt
      else {} := by
  induction k with
  | zero => rfl
  | succ k ih =>
      rw [screenRun, ih]
      simp only [d5Press2]
      by_cases h0 : k = 0
      · subst h0
        decide
      · rw [if_neg h0]
        rcases Nat.lt_or_ge k 1000 with hk | hk
        · rw [if_pos (show k ≤ 1000 by omega)]
          have hd : decide (k < 1000) = true := by
            simp
            omega
          rw [hd, screenStep_d5weather d5Cfg d5ShowingSt true k rfl rfl rfl rfl,
            d5WeatherStep_hold d5Cfg d5ShowingSt k rfl,
            if_neg (show ¬ k + 1 = 0 by omega),
            if_pos (show k + 1 ≤ 1000 by omega)]
        · have hd : decide (k < 1000) = false := by
            simp
            omega
          rcases Nat.lt_or_ge k 1001 with hk2 | hk2
          · have hk' : k = 1000 := by omega
            subst hk'
            decide
          · rcases Nat.lt_or_ge k 6000 with hk3 | hk3
            · rw [if_neg (show ¬ k ≤ 1000 by omega),
                if_pos (show k ≤ 6000 by omega)]
              rw [hd,
                screenStep_d5weather d5Cfg d5PendingSt false k rfl rfl rfl rfl,
                d5WeatherStep_wait d5Cfg d5PendingSt k rfl (by decide)
                  (by decide) (by show k - 1000 < 5000; omega),
                if_neg (show ¬ k + 1 = 0 by omega),
                if_neg (show ¬ k + 1 ≤ 1000 by omega),
                if_pos (show k + 1 ≤ 6000 by omega)]
            · rcases Nat.lt_or_ge k 6001 with hk4 | hk4
              · have hk' : k = 6000 := by omega
                subst hk'
                decide
              · rw [if_neg (show ¬ k ≤ 1000 by omega),
                  if_neg (show ¬ k ≤ 6000 by omega)]
                rw [hd,
                  screenStep_d5weather d5Cfg {} false k rfl rfl rfl rfl,
                  d5WeatherStep_idle d5Cfg {} k rfl,
                  if_neg (show ¬ k + 1 = 0 by omega),
                  if_neg (show ¬ k + 1 ≤ 1000 by omega),
                  if_neg (show ¬ k + 1 ≤ 6000 by omega)]

/-- Trace characterization for the timeout-0 scenario: pressed during
[0,1000), instant revert in the iteration at t = 1000. -/
theorem screenRun_instant_char (k : Nat) :
    screenRun d5CfgInstant d5Press2 k {} =
      if k = 0 then {} else if k ≤ 1000 then d5ShowingSt else {} := by
  induction k with
  | zero => rfl
  | succ k ih =>
      rw [screenRun, ih]
      simp only [d5Press2]
      by_cases h0 : k = 0
      · subst h0
        decide
      · rw [if_neg h0]
        rcases Nat.lt_or_ge k 1000 with hk | hk
        · rw [if_pos (show k ≤ 1000 by omega)]
          have hd : decide (k < 1000) = true := by
            simp
            omega
          rw [hd,
            screenStep_d5weather d5CfgInstant d5ShowingSt true k rfl rfl rfl
              rfl,
            d5WeatherStep_hold d5CfgInstant d5ShowingSt k rfl,
            if_neg (show ¬ k + 1 = 0 by omega),
            if_pos (show k + 1 ≤ 1000 by omega)]
        · have hd : decide (k < 1000) = false := by
            simp
            omega
          rcases Nat.lt_or_ge k 1001 with hk2 | hk2
          · have hk' : k = 1000 := by omega
            subst hk'
            decide
          · rw [if_neg (show ¬ k ≤ 1000 by omega)]
            rw [hd,
              screenStep_d5weather d5CfgInstant {} false k rfl rfl rfl rfl,
              d5WeatherStep_idle d5CfgInstant {} k rfl,
              if_neg (show ¬ k + 1 = 0 by omega),
              if_neg (show ¬ k + 1 ≤ 1000 by omega)]

/-- Claim C4: dual-purpose D5 button in weather mode with timeout 5000 ms,
at 1 ms loop cadence (`screenRun k` is the state after the iterations at
times 0..k-1).  A press at t = 0 shows Secondary immediately (already after
the iteration at t = 0); the release at t = 1000 starts the countdown
(release time 1000 recorded); with the re-press at t = 3000 — before the
countdown elapses — the screen remains Secondary forever (the pending revert
never fires while the button is held); with a single release and no
re-press the screen is Secondary through the iteration at t = 5999 and
Primary from the iteration at t = 1000 + 5000 = 6000 on; and with
timeout 0 the revert is instant: Secondary through t = 999, Primary from
the iteration at t = 1000 on. -/
theorem C4_dual_purpose_button :
    (screenRun d5Cfg d5Press1 1 {}).currentScreen = 1 ∧
    (screenRun d5Cfg d5Press2 1001 {}).d5WeatherReleaseTime = 1000 ∧
    (∀ k, 1 ≤ k → (screenRun d5Cfg d5Press1 k {}).currentScreen = 1) ∧
    (∀ k, 1 ≤ k → k ≤ 6000 →
      (screenRun d5Cfg d5Press2 k {}).currentScreen = 1) ∧
    (∀ k, 6001 ≤ k → (screenRun d5Cfg d5Press2 k {}).currentScreen = 0) ∧
    (∀ k, 1 ≤ k → k ≤ 1000 →
      (screenRun d5CfgInstant d5Press2 k {}).currentScreen = 1) ∧
    (∀ k, 1001 ≤ k →
      (screenRun d5CfgInstant d5Press2 k {}).currentScreen = 0) := by
  refine ⟨?_, ?_, ?_, ?_, ?_, ?_, ?_⟩
  · rw [screenRun_press1_char 1]
    decide
  · rw [screenRun_press2_char 1001]
    decide
  · intro k hk
    rw [screenRun_press1_char k, if_neg (show ¬ k = 0 by omega)]
    by_cases h1 : k ≤ 1000
    · rw [if_pos h1]
      rfl
    · rw [if_neg h1]
      rfl
  · intro k hk h6
    rw [screenRun_press2_char k, if_neg (show ¬ k = 0 by omega)]
    by_cases h1 : k ≤ 1000
    · rw [if_pos h1]
      rfl
    · rw [if_neg h1, if_pos h6]
      rfl
  · intro k hk
    rw [screenRun_press2_char k, if_neg (show ¬ k = 0 by omega),
      if_neg (show ¬ k ≤ 1000 by omega), if_neg (show ¬ k ≤ 6000 by omega)]
  · intro k hk h1
    rw [screenRun_instant_char k, if_neg (show ¬ k = 0 by omega), if_pos h1]
    rfl
  · intro k hk
    rw [screenRun_instant_char k, if_neg (show ¬ k = 0 by omega),
      if_neg (show ¬ k ≤ 1000 by omega)]

/-- Witness for C4_dual_purpose_button at concrete iteration counts: with
the re-press the screen is still Secondary after the iteration at t = 8000;
without it the screen is Secondary after the iteration at t = 5999 and
Primary after the iteration at t = 6000; with timeout 0 it is Primary after
the iteration at t = 1000. -/
theorem C4_dual_purpose_button_witness :
    (screenRun d5Cfg d5Press1 8001 {}).currentScreen = 1 ∧
    (screenRun d5Cfg d5Press2 6000 {}).currentScreen = 1 ∧
    (screenRun d5Cfg d5Press2 6001 {}).currentScreen = 0 ∧
    (screenRun d5CfgInstant d5Press2 1001 {}).currentScreen = 0 :=
  ⟨C4_dual_purpose_button.2.2.1 8001 (by decide),
   C4_dual_purpose_button.2.2.2.1 6000 (by decide) (by decide),
   C4_dual_purpose_button.2.2.2.2.1 6001 (by decide),
   C4_dual_purpose_button.2.2.2.2.2.2 1001 (by decide)⟩

end CoinWatch
